import Mathlib

set_option maxRecDepth 10000

/-!
Verification development for the news-intelligence-agent repository.

The repository ships a React chat frontend (under src/frontend) and a
Flask backend described by the spec and the READMEs; the backend service
code itself (pipeline orchestrator, analysis stages, result cache) is not
present in the source tree, so those parts are modelled from the spec,
each marked by a doc comment beginning with the words Modelled from the
spec. The frontend logic (handleSendMessage in the App component inside
MessageBubble.js, the InputArea control) is embedded directly from the
JavaScript source.

JavaScript strings are modelled as Lean strings over characters; string
primitives used by the code (trim, toLowerCase, includes, split, length)
are given explicit executable models named with a js prefix. Number
formatting helpers (toFixed, toLocaleDateString) are abstracted to
toString, since no verified property depends on the printed digits.
-/

namespace NewsAgent

/-! ## JavaScript string primitive models -/

/-- Model of JavaScript String.prototype.trim: drop leading and trailing
whitespace characters. -/
def jsTrim (s : String) : String :=
  String.mk (((s.data.dropWhile Char.isWhitespace).reverse.dropWhile Char.isWhitespace).reverse)

/-- Model of JavaScript String.prototype.toLowerCase (ASCII lowering). -/
def jsToLower (s : String) : String :=
  String.mk (s.data.map Char.toLower)

/-- Whether the pattern list is an initial segment of the text list. -/
def matchesAt : List Char → List Char → Bool
  | [], _ => true
  | _ :: _, [] => false
  | p :: ps, c :: cs => p == c && matchesAt ps cs

/-- Whether the pattern list occurs contiguously anywhere in the text
list. -/
def occursIn (sub : List Char) : List Char → Bool
  | [] => matchesAt sub []
  | c :: cs => matchesAt sub (c :: cs) || occursIn sub cs

/-- Model of JavaScript String.prototype.includes: sub occurs as a
contiguous substring of s. -/
def jsIncludes (s sub : String) : Bool :=
  occursIn sub.data s.data

/-- Splitting a character list at every occurrence of the separator
character; always returns at least one piece. -/
def jsSplitChar (sep : Char) : List Char → List (List Char)
  | [] => [[]]
  | c :: cs =>
      if c == sep then [] :: jsSplitChar sep cs
      else
        match jsSplitChar sep cs with
        | [] => [[c]]
        | r :: rs => (c :: r) :: rs

/-- Model of JavaScript String.prototype.split with separator newline. -/
def jsSplitNl (s : String) : List String :=
  (jsSplitChar '\n' s.data).map String.mk

/-- Model of JavaScript Array.prototype.join. -/
def jsJoin (sep : String) : List String → String
  | [] => ""
  | [s] => s
  | s :: r :: rest => s ++ sep ++ jsJoin sep (r :: rest)

/-- Model of the JavaScript idiom a OR b on strings: the empty string is
falsy, so an empty a selects b. -/
def jsOr2 (a b : String) : String :=
  if a = "" then b else a

/-- Model of the JavaScript idiom a OR b where a is an optional string
field: undefined and the empty string are falsy. -/
def jsOrOptStr (a : Option String) (b : String) : String :=
  match a with
  | some s => if s = "" then b else s
  | none => b

/-! ## Frontend data model (from src/frontend/src/components/MessageBubble.js) -/

/-- A chat message as kept in the App component state: text, sender tag
and timestamp (Date modelled as Nat). -/
structure Message where
  text : String
  sender : String
  timestamp : Nat
deriving DecidableEq, Repr

/-- The App component state relevant to handleSendMessage: the message
list, the input field value and the loading flag. -/
structure ChatState where
  messages : List Message
  inputValue : String
  isLoading : Bool
deriving DecidableEq, Repr

/-- Body of the POST to /api/process (pasted-article path). -/
structure ProcessRequest where
  title : String
  content : String
  source : String
  include_analysis : Bool
deriving DecidableEq, Repr

/-- Body of the POST to /api/fetch-and-process (news-query path). -/
structure FetchRequest where
  query : String
  page_size : Nat
  include_analysis : Bool
deriving DecidableEq, Repr

/-- A network request issued by handleSendMessage. -/
inductive Request where
  | processReq (r : ProcessRequest)
  | fetchReq (r : FetchRequest)
deriving DecidableEq, Repr

/-- The sentiment_analysis object of a backend response (fields read by
the frontend; absent fields are none). -/
structure SentimentDto where
  sentiment : Option String
  confidence : Option ℚ
deriving DecidableEq, Repr

/-- The fake_news_detection object of a backend response (fields read by
the frontend). -/
structure FakeNewsDto where
  prediction : Option String
  confidence : Option ℚ
deriving DecidableEq, Repr

/-- The original_article object of a backend response (fields read by the
frontend; source.name collapsed to source_name). -/
structure OriginalArticleDto where
  description : Option String
  content : Option String
  source_name : Option String
  published_at : Option Nat
deriving DecidableEq, Repr

/-- A ProcessedArticle-shaped JSON object as read by the frontend. -/
structure ArticleDto where
  title : String
  summary : Option String
  source : Option String
  sentiment_analysis : Option SentimentDto
  fake_news_detection : Option FakeNewsDto
  original_article : Option OriginalArticleDto
deriving DecidableEq, Repr

/-- Outcome of the fetch to /api/process as observed by the frontend:
an ok response carrying an article JSON, a non-ok HTTP response (the code
then throws and lands in the catch block), or a network failure (the
fetch promise rejects, also landing in the catch block). -/
inductive ProcessOutcome where
  | ok (article : ArticleDto)
  | httpError
  | networkError
deriving DecidableEq, Repr

/-- Outcome of the fetch to /api/fetch-and-process as observed by the
frontend. -/
inductive FetchOutcome where
  | ok (processed_articles : List ArticleDto)
  | httpError
  | networkError
deriving DecidableEq, Repr

/-- Environment of one handleSendMessage invocation: the response each
endpoint would give if called, and the random index Math.floor of
Math.random times 4 used by the chit-chat branch. -/
structure Env where
  processResp : ProcessOutcome
  fetchResp : FetchOutcome
  randomIndex : Fin 4
deriving DecidableEq, Repr

/-! ## Frontend rendering helpers (MessageBubble.js App component) -/

/-- Abstraction of JavaScript number formatting (toFixed): printed digits
are not load-bearing, so a rational is rendered via toString. -/
def formatNum (c : ℚ) : String :=
  toString c

/-- Abstraction of JavaScript Date toLocaleDateString. -/
def formatDate (t : Nat) : String :=
  toString t

/-- The sentiment object read by the frontend: article.sentiment_analysis
with the empty-object default. -/
def sentDtoOf (article : ArticleDto) : SentimentDto :=
  article.sentiment_analysis.getD ⟨none, none⟩

/-- The fakeNews object read by the frontend: article.fake_news_detection
with the empty-object default. -/
def fakeDtoOf (article : ArticleDto) : FakeNewsDto :=
  article.fake_news_detection.getD ⟨none, none⟩

/-- The summary text shown in the analysis reply: article.summary, else
the original article description, else the original content truncated to
n characters with an ellipsis (an absent content renders the JavaScript
undefined value into the string, as the code does). -/
def summaryFallback (article : ArticleDto) (n : Nat) : String :=
  jsOrOptStr article.summary
    (jsOrOptStr (article.original_article.bind (fun o => o.description))
      ((match article.original_article.bind (fun o => o.content) with
        | some c => String.mk (c.data.take n)
        | none => "undefined") ++ "..."))

/-- Sentiment label fragment: sentiment.sentiment with Neutral default. -/
def sentimentField (s : SentimentDto) : String :=
  jsOrOptStr s.sentiment "Neutral"

/-- Sentiment confidence fragment: parenthesised number when the
confidence is truthy, else empty. -/
def sentimentConfField (s : SentimentDto) : String :=
  match s.confidence with
  | some c => if c = 0 then "" else "(" ++ formatNum c ++ ")"
  | none => ""

/-- Credibility score fragment: a percentage when fakeNews.confidence is
truthy, else the literal High. -/
def credScoreField (f : FakeNewsDto) : String :=
  match f.confidence with
  | some c => if c = 0 then "High" else formatNum (c * 100) ++ "%"
  | none => "High"

/-- Credibility verdict fragment: the warning when the prediction equals
fake, otherwise the Likely authentic label. -/
def credVerdictField (f : FakeNewsDto) : String :=
  if f.prediction = some "fake" then "⚠️ Potential fake news detected"
  else "✅ Likely authentic"

/-- The keywords whose presence (after lowering) classifies a message as
a news query, in source order. -/
def keywordList : List String :=
  ["news", "article", "analyze", "trend", "trends", "recent", "latest",
   "development", "developments", "progress", "evolution"]

/-- isNewsQuery from handleSendMessage: the lowered message contains one
of the news keywords. -/
def isNewsQueryText (text : String) : Bool :=
  keywordList.any (fun kw => jsIncludes (jsToLower text) kw)

/-- The keywords whose presence selects the trend-analysis reply. -/
def trendKeywordList : List String :=
  ["trend", "trends", "progress", "evolution"]

/-- isTrendQuery from handleSendMessage. -/
def isTrendQueryText (text : String) : Bool :=
  trendKeywordList.any (fun kw => jsIncludes (jsToLower text) kw)

/-- The analysis reply for the pasted-article path (POST /api/process). -/
def renderArticleAnalysis (article : ArticleDto) : String :=
  "📄 **Article Analysis:**\n\n**" ++ article.title ++ "**\n\n"
    ++ summaryFallback article 300
    ++ "\n\n🔍 **Analysis Results:**\n- Sentiment: "
    ++ sentimentField (sentDtoOf article) ++ " "
    ++ sentimentConfField (sentDtoOf article)
    ++ "\n- Credibility: " ++ credScoreField (fakeDtoOf article) ++ " "
    ++ credVerdictField (fakeDtoOf article)
    ++ "\n- Source: " ++ jsOrOptStr article.source "User provided"
    ++ "\n\n*Analysis completed using AI-powered news intelligence.*"

/-- Source fragment of the news-query replies. -/
def newsSourceField (article : ArticleDto) : String :=
  jsOrOptStr article.source
    (jsOrOptStr (article.original_article.bind (fun o => o.source_name)) "Unknown")

/-- The trend-analysis reply variant of the news-query path. -/
def renderTrendAnalysis (queryText : String) (article : ArticleDto) : String :=
  "📈 **Trend Analysis for: " ++ queryText ++ "**\n\n**" ++ article.title
    ++ "**\n\n" ++ summaryFallback article 200
    ++ "\n\n🔍 **Trend Insights:**\n- Current Sentiment: "
    ++ sentimentField (sentDtoOf article) ++ " "
    ++ sentimentConfField (sentDtoOf article)
    ++ "\n- Credibility Score: " ++ credScoreField (fakeDtoOf article) ++ " "
    ++ credVerdictField (fakeDtoOf article)
    ++ "\n- Source: " ++ newsSourceField article
    ++ "\n- Published: "
    ++ (match article.original_article.bind (fun o => o.published_at) with
        | some t => formatDate t
        | none => "Recent")
    ++ "\n\n*This analysis represents the latest developments in this trend. For comprehensive trend analysis, consider checking multiple sources over time.*"

/-- The latest-news reply variant of the news-query path. -/
def renderLatestNews (article : ArticleDto) : String :=
  "📰 **Latest News:**\n\n**" ++ article.title ++ "**\n\n"
    ++ summaryFallback article 200
    ++ "\n\n🔍 **Analysis:**\n- Sentiment: "
    ++ sentimentField (sentDtoOf article) ++ " "
    ++ sentimentConfField (sentDtoOf article)
    ++ "\n- Credibility: " ++ credScoreField (fakeDtoOf article) ++ " "
    ++ credVerdictField (fakeDtoOf article)
    ++ "\n- Source: " ++ newsSourceField article
    ++ "\n\n"
    ++ (match article.original_article.bind (fun o => o.published_at) with
        | some t => "Published: " ++ formatDate t
        | none => "")

/-- The news-query reply: trend variant when the query mentions a trend
keyword, else the latest-news variant. -/
def renderNewsAnalysis (queryText : String) (article : ArticleDto) : String :=
  if isTrendQueryText queryText then renderTrendAnalysis queryText article
  else renderLatestNews article

/-- The fixed chit-chat response table of the general-chat branch. -/
def generalResponses : List String :=
  ["Hello! I\x27m your Galaxy News Intelligence Chatbot. 🌌 I can help you analyze news trends, detect fake news, and provide sentiment analysis. Try asking me about AI trends, recent developments, or current news topics!",
   "I\x27m here to help you understand news trends! 📈 Ask me about trends in AI, technology, or any topic, and I\x27ll provide trend analysis, sentiment analysis, and fake news detection.",
   "Welcome to the future of news analysis! 🔍 I can analyze news trends, track developments over time, and provide comprehensive analysis. What trend interests you?",
   "I\x27m your AI-powered news analyst! ⚡ I can help you identify trends, analyze sentiment, and track the evolution of any topic. Ask me about AI trends or any recent developments!"]

/-- Chit-chat reply selection: a pure table lookup at the injected random
index (Math.floor of Math.random times the table length). -/
def chitChatReply (idx : Fin 4) : String :=
  generalResponses.getD idx.1 ""

/-- The catch-block reply shown on any thrown error (non-ok HTTP response
or network failure). -/
def errorReplyText : String :=
  "I\x27m having trouble connecting to the analysis service. Please try again in a moment. ⚠️"

/-- The reply shown when the fetch-and-process response carries no
articles. -/
def noResultsText : String :=
  "I couldn\x27t find any relevant news articles. Try asking about a different topic! 🔄"

/-- Model of the InputArea input control with maxLength 500: any raw edit
is truncated to at most 500 characters before it can become the
inputValue. -/
def inputControlUpdate (raw : String) : String :=
  String.mk (raw.data.take 500)

/-- Embedding of handleSendMessage from the App component: given the
component state, the environment (endpoint responses and the random
chit-chat index) and the current time, returns the final component state
and the list of network requests issued. The two setMessages calls of the
source appear as the single append of the user message and the bot
message; the finally block appears as the final loading flag false. -/
def handleSendMessage (st : ChatState) (env : Env) (now : Nat) : ChatState × List Request :=
  if jsTrim st.inputValue = "" ∨ st.isLoading = true then (st, [])
  else
    let userText := jsTrim st.inputValue
    let userMessage : Message := ⟨userText, "user", now⟩
    if 200 < userText.length then
      let lines := jsSplitNl userText
      let title := jsOr2 (lines.headD "") "User Provided Article"
      let content := jsOr2 (jsTrim (jsJoin "\n" (lines.drop 1))) userText
      let req := Request.processReq ⟨title, content, "User Input", true⟩
      match env.processResp with
      | ProcessOutcome.ok article =>
          (⟨st.messages ++ [userMessage, ⟨renderArticleAnalysis article, "bot", now⟩], "", false⟩, [req])
      | ProcessOutcome.httpError =>
          (⟨st.messages ++ [userMessage, ⟨errorReplyText, "bot", now⟩], "", false⟩, [req])
      | ProcessOutcome.networkError =>
          (⟨st.messages ++ [userMessage, ⟨errorReplyText, "bot", now⟩], "", false⟩, [req])
    else if isNewsQueryText userText then
      let req := Request.fetchReq ⟨userText, 5, true⟩
      match env.fetchResp with
      | FetchOutcome.ok [] =>
          (⟨st.messages ++ [userMessage, ⟨noResultsText, "bot", now⟩], "", false⟩, [req])
      | FetchOutcome.ok (article :: _) =>
          (⟨st.messages ++ [userMessage, ⟨renderNewsAnalysis userText article, "bot", now⟩], "", false⟩, [req])
      | FetchOutcome.httpError =>
          (⟨st.messages ++ [userMessage, ⟨errorReplyText, "bot", now⟩], "", false⟩, [req])
      | FetchOutcome.networkError =>
          (⟨st.messages ++ [userMessage, ⟨errorReplyText, "bot", now⟩], "", false⟩, [req])
    else
      (⟨st.messages ++ [userMessage, ⟨chitChatReply env.randomIndex, "bot", now⟩], "", false⟩, [])

/-! ## Backend pipeline model

The backend service code (services/news_pipeline.py and friends) is not
part of the source tree, so the pipeline data model and operations below
are modelled from the spec, following its data model (section 3), stage
contracts (section 4) and orchestrator contract (sections 4.5 and 7). -/

/-- Modelled from the spec: RawArticle of the backend data model (the
backend source is not under src/); title, content, free-text source,
optional timestamp and url. -/
structure RawArticle where
  title : String
  content : String
  source : String
  publishedAt : Option Nat
  url : Option String
deriving DecidableEq, Repr

/-- Modelled from the spec: the provenance tag of a stage result. -/
inductive Origin where
  | primary
  | fallback
  | unavailable
deriving DecidableEq, Repr

/-- Modelled from the spec: StageResult, the wrapper every stage returns;
confidence is a rational in place of the float of the implementation. -/
structure StageResult (T : Type) where
  value : T
  confidence : ℚ
  origin : Origin
deriving DecidableEq, Repr

/-- Modelled from the spec: the closed sentiment value set. -/
inductive SentimentValue where
  | positive
  | negative
  | neutral
deriving DecidableEq, Repr

/-- Modelled from the spec: the closed credibility value set. -/
inductive CredibilityValue where
  | authentic
  | fake
  | unknown
deriving DecidableEq, Repr

/-- Modelled from the spec: ProcessedArticle, the merged record produced
per article; the partial flag (a reserved word here) is named
partialFlag. -/
structure ProcessedArticle where
  article : RawArticle
  sentiment : StageResult SentimentValue
  credibility : StageResult CredibilityValue
  summary : StageResult String
  processedAt : Nat
  partialFlag : Bool
deriving DecidableEq, Repr

/-- Modelled from the spec: the injected stage services of the
orchestrator. Each stage classifies or summarizes a text and may fail
internally, modelled as Except; maxLen is the summary length bound used
for the truncation default. -/
structure Stages where
  sentiment : String → Except String (StageResult SentimentValue)
  credibility : String → Except String (StageResult CredibilityValue)
  summary : String → Except String (StageResult String)
  maxLen : Nat

/-- Modelled from the spec: truncation of the article content used as
the summary value when the summary stage is unavailable. -/
def truncateTo (s : String) (n : Nat) : String :=
  String.mk (s.data.take n)

/-- Modelled from the spec: the orchestrator runs one stage and converts
any internal stage error into a StageResult with origin unavailable and
the stage default value at confidence zero, instead of propagating the
error. -/
def runStage {T : Type} (defaultValue : T) (stage : String → Except String (StageResult T))
    (text : String) : StageResult T :=
  match stage text with
  | Except.ok r => r
  | Except.error _ => ⟨defaultValue, 0, Origin.unavailable⟩

/-- Whether a stage result is degraded (did not come from the primary
model). -/
def StageResult.degraded {T : Type} (r : StageResult T) : Bool :=
  match r.origin with
  | Origin.primary => false
  | Origin.fallback => true
  | Origin.unavailable => true

/-- Modelled from the spec: processOne runs the three stages over the
article text and merges the outcomes into a ProcessedArticle; a stage
error degrades that stage per its policy (neutral, unknown, content
truncation) and never escapes. -/
def processOne (stages : Stages) (now : Nat) (a : RawArticle) : ProcessedArticle :=
  let s := runStage SentimentValue.neutral stages.sentiment a.content
  let c := runStage CredibilityValue.unknown stages.credibility a.content
  let m := runStage (truncateTo a.content stages.maxLen) stages.summary a.content
  ⟨a, s, c, m, now, s.degraded || c.degraded || m.degraded⟩

/-- Modelled from the spec: the record emitted for an article whose
processing fails entirely; all three stages are marked unavailable. -/
def allUnavailableRecord (stages : Stages) (now : Nat) (a : RawArticle) : ProcessedArticle :=
  ⟨a, ⟨SentimentValue.neutral, 0, Origin.unavailable⟩,
      ⟨CredibilityValue.unknown, 0, Origin.unavailable⟩,
      ⟨truncateTo a.content stages.maxLen, 0, Origin.unavailable⟩,
      now, true⟩

/-- Modelled from the spec: the per-article step of processBatch. The
crash oracle injects the unexpected total failure of one article (the
spec test scenario); a crashed article yields the all-unavailable record
and the batch continues. -/
def processEntry (stages : Stages) (crash : RawArticle → Bool) (now : Nat)
    (a : RawArticle) : ProcessedArticle :=
  if crash a then allUnavailableRecord stages now a else processOne stages now a

/-- Modelled from the spec: processBatch processes each article
independently, in input order. -/
def processBatch (stages : Stages) (crash : RawArticle → Bool) (now : Nat)
    (articles : List RawArticle) : List ProcessedArticle :=
  articles.map (processEntry stages crash now)

/-- Modelled from the spec: fetchAndProcess delegates fetching to the
source collaborator and processes whatever subset came back. -/
def fetchAndProcess (stages : Stages) (crash : RawArticle → Bool) (now : Nat)
    (fetch : String → Nat → List RawArticle) (query : String) (pageSize : Nat) :
    List ProcessedArticle :=
  processBatch stages crash now (fetch query pageSize)

/-- Modelled from the spec: the degraded-mode result of CredibilityStage;
no statistical fallback exists, so degraded mode is unknown at confidence
zero with origin unavailable. -/
def credibilityDegraded : StageResult CredibilityValue :=
  ⟨CredibilityValue.unknown, 0, Origin.unavailable⟩

/-- Modelled from the spec: the fake_news_detection JSON object the
backend serves for a credibility stage result (prediction string and
confidence), as consumed by the frontend. -/
def credValueString (v : CredibilityValue) : String :=
  match v with
  | CredibilityValue.authentic => "authentic"
  | CredibilityValue.fake => "fake"
  | CredibilityValue.unknown => "unknown"

/-- Modelled from the spec: serialization of a credibility StageResult
into the DTO the frontend reads. -/
def credibilityToDto (r : StageResult CredibilityValue) : FakeNewsDto :=
  ⟨some (credValueString r.value), some r.confidence⟩

/-! ## Result cache model -/

/-- Modelled from the spec: a cache entry value, the stage result and its
absolute expiry instant. -/
structure CacheEntryV (α : Type) where
  result : α
  expiry : Nat
deriving DecidableEq, Repr

/-- Modelled from the spec: ResultCache, an association of
(stageName, contentFingerprint) keys to entries; puts prepend, so the
most recent write for a key wins on lookup. -/
structure ResultCache (α : Type) where
  entries : List ((String × Nat) × CacheEntryV α)
deriving DecidableEq, Repr

/-- Modelled from the spec: the raw association lookup for a key, prior
to any expiry check. -/
def cacheLookup {α : Type} (c : ResultCache α) (stage : String) (fp : Nat) :
    Option (CacheEntryV α) :=
  (c.entries.find? (fun e => e.1.1 == stage && e.1.2 == fp)).map Prod.snd

/-- Modelled from the spec: get returns a hit only while the current time
is before the entry expiry; an expired entry is treated as absent (lazy
eviction on read). -/
def cacheGet {α : Type} (c : ResultCache α) (stage : String) (fp : Nat) (now : Nat) :
    Option α :=
  match cacheLookup c stage fp with
  | some entry => if now < entry.expiry then some entry.result else none
  | none => none

/-- Modelled from the spec: put stores the result with expiry now + ttl. -/
def cachePut {α : Type} (c : ResultCache α) (stage : String) (fp : Nat) (r : α)
    (ttl now : Nat) : ResultCache α :=
  ⟨((stage, fp), ⟨r, now + ttl⟩) :: c.entries⟩

/-- Modelled from the spec: the cache-checked run of one stage
computation; on a miss (including an expired entry) the stage logic
re-runs and the result is stored; the Bool reports whether the stage
logic ran. -/
def cachedRun {α : Type} (c : ResultCache α) (stage : String) (fp : Nat) (now ttl : Nat)
    (compute : Unit → α) : α × ResultCache α × Bool :=
  match cacheGet c stage fp now with
  | some r => (r, c, false)
  | none =>
      let r := compute ()
      (r, cachePut c stage fp r ttl now, true)

/-! ## Concrete instances used by witnesses -/

/-- An environment in which both endpoints fail at the network level. -/
def envNetworkDown : Env :=
  ⟨ProcessOutcome.networkError, FetchOutcome.networkError, 0⟩

/-- An environment in which fetch-and-process succeeds with no
articles. -/
def envFetchEmpty : Env :=
  ⟨ProcessOutcome.networkError, FetchOutcome.ok [], 0⟩

/-- The example article of the spec. -/
def sampleArticle : RawArticle :=
  ⟨"X", "Stocks rally as tech earnings beat expectations", "Example News", none, none⟩

/-- First article of the batch test scenario. -/
def artA : RawArticle := ⟨"A", "alpha market content", "SrcA", none, none⟩

/-- Second article of the batch test scenario, the one whose processing
crashes. -/
def artB : RawArticle := ⟨"B", "beta market content", "SrcB", none, none⟩

/-- Third article of the batch test scenario. -/
def artC : RawArticle := ⟨"C", "gamma market content", "SrcC", none, none⟩

/-- A concrete primary sentiment result. -/
def sentPrimary : StageResult SentimentValue :=
  ⟨SentimentValue.positive, 9 / 10, Origin.primary⟩

/-- A stage assembly in which every stage fails internally. -/
def stagesAllError : Stages :=
  ⟨fun _ => Except.error "sentiment model down",
   fun _ => Except.error "credibility model down",
   fun _ => Except.error "summary service down", 400⟩

/-- A stage assembly in which every stage succeeds at the primary tier. -/
def stagesAllOk : Stages :=
  ⟨fun _ => Except.ok ⟨SentimentValue.positive, 9 / 10, Origin.primary⟩,
   fun _ => Except.ok ⟨CredibilityValue.authentic, 4 / 5, Origin.primary⟩,
   fun _ => Except.ok ⟨"a short summary", 3 / 5, Origin.primary⟩, 400⟩

/-- The crash oracle of the batch test scenario: only article B fails
entirely. -/
def crashOnB (a : RawArticle) : Bool :=
  a.title == "B"

/-- A 205-character article body. -/
def longBody : String :=
  String.mk (List.replicate 205 'b')

/-- A pasted-article message: a title line followed by a long body. -/
def longMsg : String :=
  "My Title\n" ++ longBody

/-! ## Theorems -/

/-- Length of a string built from an explicit character list. -/
theorem string_length_mk (l : List Char) : (String.mk l).length = l.length := rfl

/-- Character list of a string built from an explicit character list. -/
theorem string_data_mk (l : List Char) : (String.mk l).data = l := rfl

/-- Trimming never lengthens a string. -/
theorem jsTrim_length_le (s : String) : (jsTrim s).length ≤ s.length := by
  cases s with
  | mk l =>
    have h1 := (List.dropWhile_sublist (p := Char.isWhitespace) (l := l)).length_le
    have h2 := (List.dropWhile_sublist (p := Char.isWhitespace)
        (l := (l.dropWhile Char.isWhitespace).reverse)).length_le
    simp only [jsTrim, string_length_mk, string_data_mk, List.length_reverse] at *
    omega

/-- C3: an empty or whitespace-only input is rejected at the boundary:
handleSendMessage returns with the state unchanged and no network request
issued; whitespace-only inputs trim to the empty string; and the input
control maxLength cap bounds every input value, hence every submittable
(trimmed) message, to at most 500 characters. -/
theorem emptyInput_rejected_and_size_cap (st : ChatState) (env : Env) (now : Nat) :
    (jsTrim st.inputValue = "" → handleSendMessage st env now = (st, []))
    ∧ (∀ s : String, (∀ c ∈ s.data, Char.isWhitespace c) → jsTrim s = "")
    ∧ (∀ raw : String, (inputControlUpdate raw).length ≤ 500)
    ∧ (∀ raw : String, (jsTrim (inputControlUpdate raw)).length ≤ 500) := by
  have cap : ∀ raw : String, (inputControlUpdate raw).length ≤ 500 := by
    intro raw
    have : (inputControlUpdate raw).length = min 500 raw.data.length := by
      simp [inputControlUpdate, string_length_mk, List.length_take]
    omega
  refine ⟨?_, ?_, cap, fun raw => le_trans (jsTrim_length_le _) (cap raw)⟩
  · intro h
    simp [handleSendMessage, h]
  · intro s hs
    have h1 : s.data.dropWhile Char.isWhitespace = [] :=
      List.dropWhile_eq_nil_iff.mpr hs
    simp [jsTrim, h1]

/-- Witness for C3: a whitespace-only submission leaves the chat state
untouched and issues nothing, and a 600-character raw edit is capped
below 500 submittable characters. -/
theorem emptyInput_rejected_and_size_cap_witness :
    handleSendMessage ⟨[], "   ", false⟩ envNetworkDown 3 = (⟨[], "   ", false⟩, [])
    ∧ jsTrim " \t " = ""
    ∧ (jsTrim (inputControlUpdate (String.mk (List.replicate 600 'a')))).length ≤ 500 :=
  ⟨(emptyInput_rejected_and_size_cap ⟨[], "   ", false⟩ envNetworkDown 3).1 (by decide),
   (emptyInput_rejected_and_size_cap ⟨[], "   ", false⟩ envNetworkDown 3).2.1 " \t "
     (by decide),
   (emptyInput_rejected_and_size_cap ⟨[], "   ", false⟩ envNetworkDown 3).2.2.2
     (String.mk (List.replicate 600 'a'))⟩

/-- C4 exhibit: the credibility stage degraded result is unknown at
confidence zero with origin unavailable, yet the frontend renders its DTO
with the High score fragment and the Likely authentic verdict, thereby
presenting a degraded credibility result as authentic. -/
theorem degraded_credibility_rendered_authentic :
    credibilityDegraded = ⟨CredibilityValue.unknown, 0, Origin.unavailable⟩
    ∧ credibilityToDto credibilityDegraded = ⟨some "unknown", some 0⟩
    ∧ credScoreField (credibilityToDto credibilityDegraded) = "High"
    ∧ credVerdictField (credibilityToDto credibilityDegraded) = "✅ Likely authentic" := by
  refine ⟨rfl, rfl, ?_, ?_⟩ <;> decide

/-- C7: the chit-chat branch issues no request, its reply is the table
entry at the injected index, the reply agrees across environments that
agree on the index, and every possible reply is a member of the fixed
table. -/
theorem chitchat_fixed_table (st : ChatState) (env env2 : Env) (now : Nat) :
    ((jsTrim st.inputValue ≠ "") → st.isLoading = false →
      (jsTrim st.inputValue).length ≤ 200 →
      isNewsQueryText (jsTrim st.inputValue) = false →
      (handleSendMessage st env now =
        (⟨st.messages ++ [⟨jsTrim st.inputValue, "user", now⟩,
            ⟨chitChatReply env.randomIndex, "bot", now⟩], "", false⟩, [])
      ∧ (env2.randomIndex = env.randomIndex →
          handleSendMessage st env2 now = handleSendMessage st env now)))
    ∧ (∀ idx : Fin 4, chitChatReply idx ∈ generalResponses) := by
  constructor
  · intro h1 h2 h3 h4
    have hn : ¬ (200 < (jsTrim st.inputValue).length) := by omega
    constructor
    · simp [handleSendMessage, h1, h2, hn, h4]
    · intro hidx
      simp [handleSendMessage, h1, h2, hn, h4, hidx]
  · intro idx
    fin_cases idx <;> decide

/-- Witness for C7: a concrete chit-chat message produces the table entry
at index zero and no request. -/
theorem chitchat_fixed_table_witness :
    handleSendMessage ⟨[], "hello there", false⟩ envNetworkDown 4 =
      (⟨[⟨"hello there", "user", 4⟩, ⟨chitChatReply 0, "bot", 4⟩], "", false⟩, [])
    ∧ chitChatReply 0 ∈ generalResponses :=
  ⟨((chitchat_fixed_table ⟨[], "hello there", false⟩ envNetworkDown envNetworkDown 4).1
      (by decide) rfl (by decide) (by decide)).1,
   (chitchat_fixed_table ⟨[], "hello there", false⟩ envNetworkDown envNetworkDown 4).2 0⟩

/-- C1: processOne returns a structurally complete ProcessedArticle built
from the given article, and every stage-internal error is converted into
a StageResult with origin unavailable (stage default value at confidence
zero) instead of propagating to the caller; a successful stage result is
passed through unchanged. -/
theorem processOne_contains_stage_errors (stages : Stages) (now : Nat) (a : RawArticle) :
    (processOne stages now a).article = a
    ∧ (processOne stages now a).processedAt = now
    ∧ (∀ e, stages.sentiment a.content = Except.error e →
        (processOne stages now a).sentiment =
          ⟨SentimentValue.neutral, 0, Origin.unavailable⟩)
    ∧ (∀ e, stages.credibility a.content = Except.error e →
        (processOne stages now a).credibility =
          ⟨CredibilityValue.unknown, 0, Origin.unavailable⟩)
    ∧ (∀ e, stages.summary a.content = Except.error e →
        (processOne stages now a).summary =
          ⟨truncateTo a.content stages.maxLen, 0, Origin.unavailable⟩)
    ∧ (∀ r, stages.sentiment a.content = Except.ok r →
        (processOne stages now a).sentiment = r)
    ∧ (∀ r, stages.credibility a.content = Except.ok r →
        (processOne stages now a).credibility = r)
    ∧ (∀ r, stages.summary a.content = Except.ok r →
        (processOne stages now a).summary = r) := by
  refine ⟨rfl, rfl, ?_, ?_, ?_, ?_, ?_, ?_⟩ <;> intro x h <;>
    simp [processOne, runStage, h]

/-- Witness for C1 at the sample article with all three stages failing
internally: each stage field is the unavailable conversion. -/
theorem processOne_contains_stage_errors_witness :
    (processOne stagesAllError 7 sampleArticle).sentiment =
      ⟨SentimentValue.neutral, 0, Origin.unavailable⟩
    ∧ (processOne stagesAllError 7 sampleArticle).credibility =
      ⟨CredibilityValue.unknown, 0, Origin.unavailable⟩
    ∧ (processOne stagesAllError 7 sampleArticle).summary =
      ⟨truncateTo sampleArticle.content stagesAllError.maxLen, 0, Origin.unavailable⟩ :=
  ⟨(processOne_contains_stage_errors stagesAllError 7 sampleArticle).2.2.1
      "sentiment model down" rfl,
   (processOne_contains_stage_errors stagesAllError 7 sampleArticle).2.2.2.1
      "credibility model down" rfl,
   (processOne_contains_stage_errors stagesAllError 7 sampleArticle).2.2.2.2.1
      "summary service down" rfl⟩

/-- The per-article batch step always carries its input article. -/
theorem processEntry_article (stages : Stages) (crash : RawArticle → Bool) (now : Nat)
    (a : RawArticle) : (processEntry stages crash now a).article = a := by
  unfold processEntry
  split <;> rfl

/-- C2: processBatch returns one result per input article with output
order matching input order: the i-th result is the processed i-th
article; an article whose processing crashes entirely yields the
all-unavailable record while the batch continues; a normal article yields
its processOne record. -/
theorem processBatch_length_and_order (stages : Stages) (crash : RawArticle → Bool)
    (now : Nat) (articles : List RawArticle) :
    (processBatch stages crash now articles).length = articles.length
    ∧ (∀ i : Nat, (processBatch stages crash now articles)[i]? =
        (articles[i]?).map (processEntry stages crash now))
    ∧ (∀ i : Nat, ∀ a, articles[i]? = some a →
        ((processBatch stages crash now articles)[i]?).map (fun p => p.article) = some a)
    ∧ (∀ i : Nat, ∀ a, articles[i]? = some a → crash a = true →
        (processBatch stages crash now articles)[i]? =
          some (allUnavailableRecord stages now a)
        ∧ (allUnavailableRecord stages now a).sentiment.origin = Origin.unavailable
        ∧ (allUnavailableRecord stages now a).credibility.origin = Origin.unavailable
        ∧ (allUnavailableRecord stages now a).summary.origin = Origin.unavailable)
    ∧ (∀ i : Nat, ∀ a, articles[i]? = some a → crash a = false →
        (processBatch stages crash now articles)[i]? =
          some (processOne stages now a)) := by
  refine ⟨by simp [processBatch], ?_, ?_, ?_, ?_⟩
  · intro i
    simp [processBatch, List.getElem?_map]
  · intro i a h
    simp [processBatch, List.getElem?_map, h, processEntry_article]
  · intro i a h hc
    refine ⟨?_, rfl, rfl, rfl⟩
    simp [processBatch, List.getElem?_map, h, processEntry, hc]
  · intro i a h hc
    simp [processBatch, List.getElem?_map, h, processEntry, hc]

/-- Witness for C2 at the spec test scenario: a three-article batch whose
second article crashes gives exactly three results in order, the second
all-unavailable, the first and third processed normally. -/
theorem processBatch_length_and_order_witness :
    (processBatch stagesAllOk crashOnB 7 [artA, artB, artC]).length = 3
    ∧ (processBatch stagesAllOk crashOnB 7 [artA, artB, artC])[1]? =
        some (allUnavailableRecord stagesAllOk 7 artB)
    ∧ (processBatch stagesAllOk crashOnB 7 [artA, artB, artC])[0]? =
        some (processOne stagesAllOk 7 artA)
    ∧ (processBatch stagesAllOk crashOnB 7 [artA, artB, artC])[2]? =
        some (processOne stagesAllOk 7 artC) :=
  ⟨(processBatch_length_and_order stagesAllOk crashOnB 7 [artA, artB, artC]).1,
   ((processBatch_length_and_order stagesAllOk crashOnB 7 [artA, artB, artC]).2.2.2.1
      1 artB rfl (by decide)).1,
   (processBatch_length_and_order stagesAllOk crashOnB 7 [artA, artB, artC]).2.2.2.2
      0 artA rfl (by decide),
   (processBatch_length_and_order stagesAllOk crashOnB 7 [artA, artB, artC]).2.2.2.2
      2 artC rfl (by decide)⟩

/-- C5: the cache respects its TTL invariant: a hit is returned only
while the current time is strictly before the stored expiry; an expired
entry behaves exactly like an absent one; a miss (absent or expired)
makes the stage logic re-run and stores the fresh result; a hit returns
the stored value without recomputing; and an entry put at time now with
lifetime ttl is treated as absent at any instant at or past now + ttl and
returned strictly before it. -/
theorem cache_ttl_invariant {α : Type} (c : ResultCache α) (stage : String) (fp : Nat)
    (now now2 ttl : Nat) (r : α) (compute : Unit → α) :
    (∀ x, cacheGet c stage fp now = some x →
      ∃ entry, cacheLookup c stage fp = some entry
        ∧ entry.result = x ∧ now < entry.expiry)
    ∧ (∀ entry, cacheLookup c stage fp = some entry → entry.expiry ≤ now →
        cacheGet c stage fp now = none)
    ∧ (cacheGet c stage fp now = none →
        cachedRun c stage fp now ttl compute =
          (compute (), cachePut c stage fp (compute ()) ttl now, true))
    ∧ (cacheGet c stage fp now = some r →
        cachedRun c stage fp now ttl compute = (r, c, false))
    ∧ (now + ttl ≤ now2 → cacheGet (cachePut c stage fp r ttl now) stage fp now2 = none)
    ∧ (now2 < now + ttl →
        cacheGet (cachePut c stage fp r ttl now) stage fp now2 = some r) := by
  have hput : cacheLookup (cachePut c stage fp r ttl now) stage fp =
      some ⟨r, now + ttl⟩ := by
    unfold cacheLookup cachePut
    rw [List.find?_cons_of_pos]
    · rfl
    · simp
  refine ⟨?_, ?_, ?_, ?_, ?_, ?_⟩
  · intro x h
    cases hl : cacheLookup c stage fp with
    | none => simp [cacheGet, hl] at h
    | some entry =>
        simp only [cacheGet, hl] at h
        by_cases hlt : now < entry.expiry
        · rw [if_pos hlt] at h
          exact ⟨entry, rfl, Option.some.inj h, hlt⟩
        · rw [if_neg hlt] at h
          exact absurd h (by simp)
  · intro entry hl hexp
    simp only [cacheGet, hl]
    rw [if_neg (by omega)]
  · intro h
    simp [cachedRun, h]
  · intro h
    simp [cachedRun, h]
  · intro h
    simp only [cacheGet, hput]
    rw [if_neg (by omega)]
  · intro h
    simp only [cacheGet, hput]
    rw [if_pos (by omega)]

/-- Witness for C5: a sentiment result put at time 100 with TTL 10 is
treated as absent at time 110 and returned at time 105, and at time 110
the cached run recomputes the stage logic. -/
theorem cache_ttl_invariant_witness :
    cacheGet (cachePut (⟨[]⟩ : ResultCache (StageResult SentimentValue))
        "sentiment" 42 sentPrimary 10 100) "sentiment" 42 110 = none
    ∧ cacheGet (cachePut (⟨[]⟩ : ResultCache (StageResult SentimentValue))
        "sentiment" 42 sentPrimary 10 100) "sentiment" 42 105 = some sentPrimary
    ∧ cachedRun (⟨[]⟩ : ResultCache (StageResult SentimentValue))
        "sentiment" 42 110 10 (fun _ => sentPrimary) =
        (sentPrimary, cachePut ⟨[]⟩ "sentiment" 42 sentPrimary 10 110, true) :=
  ⟨(cache_ttl_invariant ⟨[]⟩ "sentiment" 42 100 110 10 sentPrimary
      (fun _ => sentPrimary)).2.2.2.2.1 (by omega),
   (cache_ttl_invariant ⟨[]⟩ "sentiment" 42 100 105 10 sentPrimary
      (fun _ => sentPrimary)).2.2.2.2.2 (by omega),
   (cache_ttl_invariant ⟨[]⟩ "sentiment" 42 110 0 10 sentPrimary
      (fun _ => sentPrimary)).2.2.1 rfl⟩

/-- C6: fetchAndProcess processes exactly the list the source
collaborator returned: the result is processBatch of the fetched subset,
its length matches the fetched length, and an empty fetch yields an empty
list rather than an error; on the frontend, an ok fetch-and-process
response carrying no articles produces the no-results reply. -/
theorem fetchAndProcess_empty_ok (stages : Stages) (crash : RawArticle → Bool)
    (now : Nat) (fetch : String → Nat → List RawArticle) (query : String) (pageSize : Nat)
    (st : ChatState) (env : Env) (now2 : Nat) :
    fetchAndProcess stages crash now fetch query pageSize =
      processBatch stages crash now (fetch query pageSize)
    ∧ (fetchAndProcess stages crash now fetch query pageSize).length =
        (fetch query pageSize).length
    ∧ (fetch query pageSize = [] →
        fetchAndProcess stages crash now fetch query pageSize = [])
    ∧ (jsTrim st.inputValue ≠ "" → st.isLoading = false →
        (jsTrim st.inputValue).length ≤ 200 →
        isNewsQueryText (jsTrim st.inputValue) = true →
        env.fetchResp = FetchOutcome.ok [] →
        handleSendMessage st env now2 =
          (⟨st.messages ++ [⟨jsTrim st.inputValue, "user", now2⟩,
              ⟨noResultsText, "bot", now2⟩], "", false⟩,
           [Request.fetchReq ⟨jsTrim st.inputValue, 5, true⟩])) := by
  refine ⟨rfl, by simp [fetchAndProcess, processBatch], ?_, ?_⟩
  · intro h
    simp [fetchAndProcess, processBatch, h]
  · intro h1 h2 h3 h4 h5
    have hn : ¬ (200 < (jsTrim st.inputValue).length) := by omega
    simp [handleSendMessage, h1, h2, hn, h4, h5]

/-- Witness for C6: an empty fetch processes to the empty list, and a
concrete news query whose response carries no articles yields exactly the
no-results reply and the fetch request. -/
theorem fetchAndProcess_empty_ok_witness :
    fetchAndProcess stagesAllOk (fun _ => false) 3 (fun _ _ => []) "ai" 5 = []
    ∧ handleSendMessage ⟨[], "latest news", false⟩ envFetchEmpty 2 =
        (⟨[⟨"latest news", "user", 2⟩, ⟨noResultsText, "bot", 2⟩], "", false⟩,
         [Request.fetchReq ⟨"latest news", 5, true⟩]) :=
  ⟨(fetchAndProcess_empty_ok stagesAllOk (fun _ => false) 3 (fun _ _ => []) "ai" 5
      ⟨[], "latest news", false⟩ envFetchEmpty 2).2.2.1 rfl,
   (fetchAndProcess_empty_ok stagesAllOk (fun _ => false) 3 (fun _ _ => []) "ai" 5
      ⟨[], "latest news", false⟩ envFetchEmpty 2).2.2.2
      (by decide) rfl (by decide) (by decide) rfl⟩

/-- C8: a submitted message longer than 200 characters is treated as a
pasted article: regardless of the response outcome, exactly one request
is issued — a POST to /api/process whose title is the first line of the
message (or the default when that line is empty), whose content is the
remaining lines joined and trimmed (or the whole message when that
remainder is empty), with source User Input and include_analysis true. -/
theorem long_message_posts_article (st : ChatState) (env : Env) (now : Nat)
    (h1 : jsTrim st.inputValue ≠ "") (h2 : st.isLoading = false)
    (h3 : 200 < (jsTrim st.inputValue).length) :
    (handleSendMessage st env now).2 =
      [Request.processReq
        ⟨(if (jsSplitNl (jsTrim st.inputValue)).headD "" = ""
            then "User Provided Article"
            else (jsSplitNl (jsTrim st.inputValue)).headD ""),
         (if jsTrim (jsJoin "\n" ((jsSplitNl (jsTrim st.inputValue)).drop 1)) = ""
            then jsTrim st.inputValue
            else jsTrim (jsJoin "\n" ((jsSplitNl (jsTrim st.inputValue)).drop 1))),
         "User Input", true⟩] := by
  cases hp : env.processResp <;>
    simp [handleSendMessage, h1, h2, h3, hp, jsOr2]

/-- Witness for C8 at a concrete 214-character message with a title line:
the single issued request carries the first line as title and the trimmed
remainder as content. -/
theorem long_message_posts_article_witness :
    (handleSendMessage ⟨[], longMsg, false⟩ envNetworkDown 5).2 =
      [Request.processReq ⟨"My Title", longBody, "User Input", true⟩] := by
  have h := long_message_posts_article ⟨[], longMsg, false⟩ envNetworkDown 5
      (by decide) rfl (by decide)
  rw [h]
  decide

/-- C9: a submitted message of at most 200 characters issues a POST to
/api/fetch-and-process — with the full text as query, page_size 5 and
include_analysis true — exactly when the lowered text contains one of the
news keywords; otherwise no request is issued and the reply is the
chit-chat table entry at the injected index. -/
theorem short_message_fetch_iff_keyword (st : ChatState) (env : Env) (now : Nat)
    (h1 : jsTrim st.inputValue ≠ "") (h2 : st.isLoading = false)
    (h3 : (jsTrim st.inputValue).length ≤ 200) :
    ((handleSendMessage st env now).2 ≠ [] ↔
      isNewsQueryText (jsTrim st.inputValue) = true)
    ∧ (isNewsQueryText (jsTrim st.inputValue) = true →
        (handleSendMessage st env now).2 =
          [Request.fetchReq ⟨jsTrim st.inputValue, 5, true⟩])
    ∧ (isNewsQueryText (jsTrim st.inputValue) = false →
        (handleSendMessage st env now).2 = []
        ∧ ((handleSendMessage st env now).1).messages =
            st.messages ++ [⟨jsTrim st.inputValue, "user", now⟩,
              ⟨chitChatReply env.randomIndex, "bot", now⟩])
    ∧ (∀ text : String, isNewsQueryText text = true ↔
        ∃ kw ∈ keywordList, jsIncludes (jsToLower text) kw = true) := by
  have hn : ¬ (200 < (jsTrim st.inputValue).length) := by omega
  have hfetch : isNewsQueryText (jsTrim st.inputValue) = true →
      (handleSendMessage st env now).2 =
        [Request.fetchReq ⟨jsTrim st.inputValue, 5, true⟩] := by
    intro hq
    cases hf : env.fetchResp with
    | ok arts => cases arts <;> simp [handleSendMessage, h1, h2, hn, hq, hf]
    | httpError => simp [handleSendMessage, h1, h2, hn, hq, hf]
    | networkError => simp [handleSendMessage, h1, h2, hn, hq, hf]
  have hchit : isNewsQueryText (jsTrim st.inputValue) = false →
      (handleSendMessage st env now).2 = []
      ∧ ((handleSendMessage st env now).1).messages =
          st.messages ++ [⟨jsTrim st.inputValue, "user", now⟩,
            ⟨chitChatReply env.randomIndex, "bot", now⟩] := by
    intro hq
    constructor <;> simp [handleSendMessage, h1, h2, hn, hq]
  refine ⟨?_, hfetch, hchit, ?_⟩
  · constructor
    · intro hne
      by_contra hq
      rw [Bool.not_eq_true] at hq
      exact hne (hchit hq).1
    · intro hq
      rw [hfetch hq]
      simp
  · intro text
    simp [isNewsQueryText, List.any_eq_true]

/-- Witness for C9: a short keyword message issues exactly the fetch
request, and a short keyword-free message issues nothing. -/
theorem short_message_fetch_iff_keyword_witness :
    (handleSendMessage ⟨[], "latest news", false⟩ envFetchEmpty 2).2 =
      [Request.fetchReq ⟨"latest news", 5, true⟩]
    ∧ (handleSendMessage ⟨[], "hello there", false⟩ envNetworkDown 2).2 = [] :=
  ⟨(short_message_fetch_iff_keyword ⟨[], "latest news", false⟩ envFetchEmpty 2
      (by decide) rfl (by decide)).2.1 (by decide),
   ((short_message_fetch_iff_keyword ⟨[], "hello there", false⟩ envNetworkDown 2
      (by decide) rfl (by decide)).2.2.1 (by decide)).1⟩

/-- C10: any invocation that passes the non-empty input guard extends the
message list append-only by exactly the user message followed by one bot
message — all previous messages unchanged — and on every path (analysis
reply, no-results reply, chit-chat, connection error) clears the input
and resets the loading flag to false. -/
theorem send_message_frame (st : ChatState) (env : Env) (now : Nat)
    (h1 : jsTrim st.inputValue ≠ "") (h2 : st.isLoading = false) :
    ∃ bot : Message,
      ((handleSendMessage st env now).1).messages =
        st.messages ++ [⟨jsTrim st.inputValue, "user", now⟩, bot]
      ∧ bot.sender = "bot"
      ∧ ((handleSendMessage st env now).1).isLoading = false
      ∧ ((handleSendMessage st env now).1).inputValue = "" := by
  by_cases hlen : 200 < (jsTrim st.inputValue).length
  · cases hp : env.processResp with
    | ok article =>
        have heq : (handleSendMessage st env now).1 =
            ⟨st.messages ++ [⟨jsTrim st.inputValue, "user", now⟩,
              ⟨renderArticleAnalysis article, "bot", now⟩], "", false⟩ := by
          simp [handleSendMessage, h1, h2, hlen, hp]
        exact ⟨⟨renderArticleAnalysis article, "bot", now⟩,
          by rw [heq], rfl, by rw [heq], by rw [heq]⟩
    | httpError =>
        have heq : (handleSendMessage st env now).1 =
            ⟨st.messages ++ [⟨jsTrim st.inputValue, "user", now⟩,
              ⟨errorReplyText, "bot", now⟩], "", false⟩ := by
          simp [handleSendMessage, h1, h2, hlen, hp]
        exact ⟨⟨errorReplyText, "bot", now⟩,
          by rw [heq], rfl, by rw [heq], by rw [heq]⟩
    | networkError =>
        have heq : (handleSendMessage st env now).1 =
            ⟨st.messages ++ [⟨jsTrim st.inputValue, "user", now⟩,
              ⟨errorReplyText, "bot", now⟩], "", false⟩ := by
          simp [handleSendMessage, h1, h2, hlen, hp]
        exact ⟨⟨errorReplyText, "bot", now⟩,
          by rw [heq], rfl, by rw [heq], by rw [heq]⟩
  · cases hq : isNewsQueryText (jsTrim st.inputValue) with
    | true =>
        cases hf : env.fetchResp with
        | ok arts =>
            cases arts with
            | nil =>
                have heq : (handleSendMessage st env now).1 =
                    ⟨st.messages ++ [⟨jsTrim st.inputValue, "user", now⟩,
                      ⟨noResultsText, "bot", now⟩], "", false⟩ := by
                  simp [handleSendMessage, h1, h2, hlen, hq, hf]
                exact ⟨⟨noResultsText, "bot", now⟩,
                  by rw [heq], rfl, by rw [heq], by rw [heq]⟩
            | cons article rest =>
                have heq : (handleSendMessage st env now).1 =
                    ⟨st.messages ++ [⟨jsTrim st.inputValue, "user", now⟩,
                      ⟨renderNewsAnalysis (jsTrim st.inputValue) article, "bot", now⟩],
                     "", false⟩ := by
                  simp [handleSendMessage, h1, h2, hlen, hq, hf]
                exact ⟨⟨renderNewsAnalysis (jsTrim st.inputValue) article, "bot", now⟩,
                  by rw [heq], rfl, by rw [heq], by rw [heq]⟩
        | httpError =>
            have heq : (handleSendMessage st env now).1 =
                ⟨st.messages ++ [⟨jsTrim st.inputValue, "user", now⟩,
                  ⟨errorReplyText, "bot", now⟩], "", false⟩ := by
              simp [handleSendMessage, h1, h2, hlen, hq, hf]
            exact ⟨⟨errorReplyText, "bot", now⟩,
              by rw [heq], rfl, by rw [heq], by rw [heq]⟩
        | networkError =>
            have heq : (handleSendMessage st env now).1 =
                ⟨st.messages ++ [⟨jsTrim st.inputValue, "user", now⟩,
                  ⟨errorReplyText, "bot", now⟩], "", false⟩ := by
              simp [handleSendMessage, h1, h2, hlen, hq, hf]
            exact ⟨⟨errorReplyText, "bot", now⟩,
              by rw [heq], rfl, by rw [heq], by rw [heq]⟩
    | false =>
        have heq : (handleSendMessage st env now).1 =
            ⟨st.messages ++ [⟨jsTrim st.inputValue, "user", now⟩,
              ⟨chitChatReply env.randomIndex, "bot", now⟩], "", false⟩ := by
          simp [handleSendMessage, h1, h2, hlen, hq]
        exact ⟨⟨chitChatReply env.randomIndex, "bot", now⟩,
          by rw [heq], rfl, by rw [heq], by rw [heq]⟩

/-- Witness for C10 at a concrete chit-chat submission: the state gains
exactly the user message and one bot message and leaves loading false. -/
theorem send_message_frame_witness :
    ∃ bot : Message,
      ((handleSendMessage ⟨[], "hello there", false⟩ envNetworkDown 1).1).messages =
        [] ++ [⟨jsTrim "hello there", "user", 1⟩, bot]
      ∧ bot.sender = "bot"
      ∧ ((handleSendMessage ⟨[], "hello there", false⟩ envNetworkDown 1).1).isLoading = false
      ∧ ((handleSendMessage ⟨[], "hello there", false⟩ envNetworkDown 1).1).inputValue = "" :=
  send_message_frame ⟨[], "hello there", false⟩ envNetworkDown 1 (by decide) rfl

end NewsAgent
